import Mathlib

/-
Verification of the madvise-rs library (src/lib.rs): a thin wrapper around
the platform memory-advisory facility.

The embedding models the external platform (libc) as an oracle: a `Platform`
structure supplies the MADV_* constants and, for the advisory system call,
a return code and a post-call errno as functions of the arguments and the
current system state.  Per the platform contract described in the library's
documentation, the advisory call only changes kernel paging heuristics and
errno; it never writes the process's memory, so the oracle returns a code
and an errno but cannot alter the `mem` component of the state.

The library's own code — `AccessPattern`, `madvise`, and the two
target-conditional `AdviseMemory for [u8]` implementations — is translated
directly from src/lib.rs.
-/

namespace Madvise

/-- System state visible to the library: the process byte memory (a byte is
`some v` when the address is validly allocated and initialized, `none`
otherwise) and the thread's last OS error value (errno). -/
structure SysState where
  mem : Nat → Option Nat
  errno : Int

/-- Oracle for the host platform: the five advisory constants from the
kernel headers, and the outcome of the raw advisory system call —
`retOf` gives the call's return code and `errnoOf` gives the errno value
in effect immediately after the call, both as functions of the pointer,
length, advice code and pre-call state. -/
structure Platform where
  MADV_NORMAL : Int
  MADV_SEQUENTIAL : Int
  MADV_RANDOM : Int
  MADV_DONTNEED : Int
  MADV_WILLNEED : Int
  retOf : Nat → Nat → Int → SysState → Int
  errnoOf : Nat → Nat → Int → SysState → Int

/-- The platform's raw advisory system call as a state transformer.
Modelled from the spec: the call is purely advisory — it yields a return
code and updates errno, and "does not move, copy, allocate, or free any
memory", so the `mem` component is unchanged. -/
def Platform.syscallMadvise (p : Platform) (ptr len : Nat) (advice : Int)
    (s : SysState) : Int × SysState :=
  (p.retOf ptr len advice s, { s with errno := p.errnoOf ptr len advice s })

/-- The `AccessPattern` enum of src/lib.rs: a closed `repr(i32)` enumeration
with five variants. -/
inductive AccessPattern where
  | Normal
  | Sequential
  | Random
  | DontNeed
  | WillNeed
  deriving DecidableEq, Repr

/-- Discriminant of each `AccessPattern` variant, as declared in src/lib.rs:
`Normal = libc::MADV_NORMAL`, `Sequential = libc::MADV_SEQUENTIAL`,
`Random = libc::MADV_RANDOM`, `DontNeed = libc::MADV_DONTNEED`,
`WillNeed = libc::MADV_WILLNEED`. -/
def AccessPattern.code (p : Platform) : AccessPattern → Int
  | .Normal => p.MADV_NORMAL
  | .Sequential => p.MADV_SEQUENTIAL
  | .Random => p.MADV_RANDOM
  | .DontNeed => p.MADV_DONTNEED
  | .WillNeed => p.MADV_WILLNEED

/-- The error value produced by `io::Error`: it carries the OS error code
it was constructed from. -/
structure OSError where
  code : Int
  deriving DecidableEq, Repr

/-- The value of `io::Error::last_os_error()`: an error wrapping the current
errno of the state at the moment it is read. -/
def lastOsError (s : SysState) : OSError := ⟨s.errno⟩

/-- The library function `madvise` of src/lib.rs:
`let result = libc::madvise(ptr, len, advice as c_int); if result == 0
{ Ok(()) } else { Err(io::Error::last_os_error()) }` — the error is read
from the state immediately after the platform call, with no intervening
operation. -/
def madvise (p : Platform) (ptr len : Nat) (advice : AccessPattern)
    (s : SysState) : Except OSError Unit × SysState :=
  let r := p.syscallMadvise ptr len (AccessPattern.code p advice) s
  if r.1 = 0 then (Except.ok (), r.2) else (Except.error (lastOsError r.2), r.2)

/-- A Rust byte slice `&[u8]`: a start address plus the byte values it
views.  `as_ptr` and `len` below mirror the slice methods used by the
source. -/
structure ByteSlice where
  ptr : Nat
  data : List Nat

/-- The slice method `as_ptr()`: the start address of the view. -/
def ByteSlice.as_ptr (b : ByteSlice) : Nat := b.ptr

/-- The slice method `len()`: the number of bytes viewed. -/
def ByteSlice.len (b : ByteSlice) : Nat := b.data.length

/-- The compile-time target family selecting which `impl AdviseMemory for
[u8]` is compiled: `cfg(unix)` or `cfg(not(unix))`. -/
inductive TargetFamily where
  | unix
  | other
  deriving DecidableEq

/-- The `cfg(unix)` implementation of `advise_memory_access` for `[u8]`:
`unsafe { madvise(self.as_ptr(), self.len(), advice) }`. -/
def advise_memory_access_unix (p : Platform) (b : ByteSlice)
    (advice : AccessPattern) (s : SysState) : Except OSError Unit × SysState :=
  madvise p (ByteSlice.as_ptr b) (ByteSlice.len b) advice s

/-- The `cfg(not(unix))` implementation of `advise_memory_access` for
`[u8]`: `Ok(())`, ignoring the advice and touching nothing. -/
def advise_memory_access_other (_b : ByteSlice) (_advice : AccessPattern)
    (s : SysState) : Except OSError Unit × SysState :=
  (Except.ok (), s)

/-- `advise_memory_access` as dispatched by target configuration: the
branch is fixed by the `TargetFamily` (a compile-time datum), not by any
runtime argument. -/
def advise_memory_access (tf : TargetFamily) (p : Platform) (b : ByteSlice)
    (advice : AccessPattern) (s : SysState) : Except OSError Unit × SysState :=
  match tf with
  | .unix => advise_memory_access_unix p b advice s
  | .other => advise_memory_access_other b advice s

/-- The undefined-behavior precondition of the raw `madvise` documented in
src/lib.rs: `ptr` must be non-null and the data between `ptr` and
`ptr + len` must be initialized. -/
def madvisePre (ptr len : Nat) (s : SysState) : Prop :=
  ptr ≠ 0 ∧ ∀ i, i < len → (s.mem (ptr + i)).isSome = true

/-- Well-formedness of a byte slice with respect to a state — the
guarantees the Rust type `&[u8]` provides by construction: the pointer is
non-null, and every viewed byte is validly allocated and initialized with
the slice's data. -/
def ByteSlice.wf (b : ByteSlice) (s : SysState) : Prop :=
  b.ptr ≠ 0 ∧ ∀ i, i < b.data.length → s.mem (b.ptr + i) = b.data[i]?

/-- A concrete platform whose advisory call always succeeds, with
Linux-valued advisory constants; used to instantiate theorems. -/
def okPlatform : Platform :=
  ⟨0, 2, 1, 4, 3, fun _ _ _ _ => 0, fun _ _ _ _ => 0⟩

/-- A concrete platform whose advisory call always fails with return code
-1 and errno 22 (EINVAL); used to instantiate theorems. -/
def failPlatform : Platform :=
  ⟨0, 2, 1, 4, 3, fun _ _ _ _ => -1, fun _ _ _ _ => 22⟩

/-- A concrete state: all memory initialized to zero, errno 0. -/
def zeroState : SysState := ⟨fun _ => some 0, 0⟩

/-- A concrete empty slice with a non-null (dangling) pointer, as Rust
produces for `&[]`. -/
def emptySlice : ByteSlice := ⟨4096, []⟩

/-- Helper: the result component of `madvise`, written out through the
platform oracle. -/
theorem madvise_fst_eq (p : Platform) (ptr len : Nat) (a : AccessPattern)
    (s : SysState) :
    (madvise p ptr len a s).1 =
      if p.retOf ptr len (AccessPattern.code p a) s = 0
        then Except.ok ()
        else Except.error ⟨p.errnoOf ptr len (AccessPattern.code p a) s⟩ := by
  unfold madvise Platform.syscallMadvise lastOsError
  by_cases h : p.retOf ptr len (AccessPattern.code p a) s = 0 <;> simp [h]

/-- Helper: the state component of `madvise`: only errno changes, to the
oracle's post-call errno. -/
theorem madvise_snd_eq (p : Platform) (ptr len : Nat) (a : AccessPattern)
    (s : SysState) :
    (madvise p ptr len a s).2 =
      { s with errno := p.errnoOf ptr len (AccessPattern.code p a) s } := by
  unfold madvise Platform.syscallMadvise
  by_cases h : p.retOf ptr len (AccessPattern.code p a) s = 0 <;> simp [h]

/-- C1: on unix targets, `advise_memory_access` invokes the raw madvise
operation with exactly the slice's start pointer (`as_ptr`) and exactly the
slice's length in bytes (`len`), and returns the raw operation's result
unchanged. -/
theorem advise_unix_exact_span (p : Platform) (b : ByteSlice)
    (a : AccessPattern) (s : SysState) :
    advise_memory_access TargetFamily.unix p b a s =
      madvise p (ByteSlice.as_ptr b) (ByteSlice.len b) a s ∧
    advise_memory_access TargetFamily.unix p b a s =
      (if (p.syscallMadvise b.ptr b.data.length (AccessPattern.code p a) s).1 = 0
        then (Except.ok (),
              (p.syscallMadvise b.ptr b.data.length (AccessPattern.code p a) s).2)
        else (Except.error
                (lastOsError
                  (p.syscallMadvise b.ptr b.data.length (AccessPattern.code p a) s).2),
              (p.syscallMadvise b.ptr b.data.length (AccessPattern.code p a) s).2)) :=
  ⟨rfl, rfl⟩

/-- C2: the raw `madvise` returns `Ok(())` exactly when the platform call
reports success, and otherwise returns an error carrying the OS's last
reported error — the errno of the state immediately after the platform
call, with nothing in between; the pair below is literally the platform
outcome passed through. -/
theorem madvise_passthrough (p : Platform) (ptr len : Nat)
    (a : AccessPattern) (s : SysState) :
    madvise p ptr len a s =
      (if (p.syscallMadvise ptr len (AccessPattern.code p a) s).1 = 0
        then (Except.ok (),
              (p.syscallMadvise ptr len (AccessPattern.code p a) s).2)
        else (Except.error
                ⟨((p.syscallMadvise ptr len (AccessPattern.code p a) s).2).errno⟩,
              (p.syscallMadvise ptr len (AccessPattern.code p a) s).2)) := rfl

/-- C3: on every non-unix target, `advise_memory_access` returns success
unconditionally and performs no action (the state is untouched); moreover
its outcome does not depend on any runtime argument — the unix/non-unix
selection is fixed by the compile-time target family alone. -/
theorem advise_other_noop (p : Platform) (b : ByteSlice) (a : AccessPattern)
    (s : SysState) :
    advise_memory_access TargetFamily.other p b a s = (Except.ok (), s) ∧
    (∀ (p' : Platform) (b' : ByteSlice) (a' : AccessPattern) (s' : SysState),
      (advise_memory_access TargetFamily.other p b a s).1 =
        (advise_memory_access TargetFamily.other p' b' a' s').1) :=
  ⟨rfl, fun _ _ _ _ => rfl⟩

/-- C4: `AccessPattern` is a closed enumeration of exactly the five listed
variants, pairwise distinct, and each variant's integer representation is
the platform's corresponding advisory constant — a 1:1 mapping. -/
theorem accessPattern_closed_and_mapped :
    (∀ a : AccessPattern,
      a = AccessPattern.Normal ∨ a = AccessPattern.Sequential ∨
      a = AccessPattern.Random ∨ a = AccessPattern.DontNeed ∨
      a = AccessPattern.WillNeed) ∧
    ([AccessPattern.Normal, AccessPattern.Sequential, AccessPattern.Random,
      AccessPattern.DontNeed, AccessPattern.WillNeed].Nodup ∧
     [AccessPattern.Normal, AccessPattern.Sequential, AccessPattern.Random,
      AccessPattern.DontNeed, AccessPattern.WillNeed].length = 5) ∧
    (∀ p : Platform,
      AccessPattern.code p AccessPattern.Normal = p.MADV_NORMAL ∧
      AccessPattern.code p AccessPattern.Sequential = p.MADV_SEQUENTIAL ∧
      AccessPattern.code p AccessPattern.Random = p.MADV_RANDOM ∧
      AccessPattern.code p AccessPattern.DontNeed = p.MADV_DONTNEED ∧
      AccessPattern.code p AccessPattern.WillNeed = p.MADV_WILLNEED) := by
  refine ⟨?_, ⟨by decide, rfl⟩, ?_⟩
  · intro a
    cases a <;> simp
  · intro p
    exact ⟨rfl, rfl, rfl, rfl, rfl⟩

/-- C5: the safe unix `advise_memory_access` discharges the raw operation's
undefined-behavior precondition by construction: for any well-formed byte
slice (what Rust's `&[u8]` guarantees), the pointer and length it forwards
to `madvise` — exactly `as_ptr` and `len` — satisfy the non-null and
initialized-range precondition. -/
theorem advise_discharges_precondition (p : Platform) (b : ByteSlice)
    (a : AccessPattern) (s : SysState) (h : ByteSlice.wf b s) :
    madvisePre (ByteSlice.as_ptr b) (ByteSlice.len b) s ∧
    advise_memory_access TargetFamily.unix p b a s =
      madvise p (ByteSlice.as_ptr b) (ByteSlice.len b) a s := by
  refine ⟨⟨h.1, ?_⟩, rfl⟩
  intro i hi
  have hb := h.2 i hi
  rw [ByteSlice.as_ptr, hb, List.getElem?_eq_getElem hi]
  rfl

/-- C5 witness: a concrete well-formed slice, for which the precondition
holds. -/
theorem advise_discharges_precondition_witness :
    ByteSlice.wf ⟨4096, [0, 0]⟩ zeroState ∧
    madvisePre (ByteSlice.as_ptr ⟨4096, [0, 0]⟩)
      (ByteSlice.len ⟨4096, [0, 0]⟩) zeroState :=
  ⟨⟨by decide, fun i hi => by
      match i, hi with
      | 0, _ => rfl
      | 1, _ => rfl⟩,
   (advise_discharges_precondition okPlatform ⟨4096, [0, 0]⟩
      AccessPattern.Sequential zeroState
      ⟨by decide, fun i hi => by
        match i, hi with
        | 0, _ => rfl
        | 1, _ => rfl⟩).1⟩

/-- C6: on every target, `advise_memory_access` leaves the byte contents of
memory unchanged: the memory component of the state after the call is
identical to the one before, so every byte of the slice is bit-identical. -/
theorem advise_preserves_bytes (tf : TargetFamily) (p : Platform)
    (b : ByteSlice) (a : AccessPattern) (s : SysState) :
    ((advise_memory_access tf p b a s).2).mem = s.mem := by
  cases tf
  · show ((madvise p (ByteSlice.as_ptr b) (ByteSlice.len b) a s).2).mem = s.mem
    rw [madvise_snd_eq]
  · rfl

/-- C7: the raw `madvise` with length zero passes the zero length through
to the platform call unchanged — no special-casing or short-circuit — and
returns the platform-defined result for that call. -/
theorem madvise_zero_length_passthrough (p : Platform) (ptr : Nat)
    (a : AccessPattern) (s : SysState) (h : ptr ≠ 0) :
    madvise p ptr 0 a s =
      (if (p.syscallMadvise ptr 0 (AccessPattern.code p a) s).1 = 0
        then (Except.ok (),
              (p.syscallMadvise ptr 0 (AccessPattern.code p a) s).2)
        else (Except.error
                (lastOsError (p.syscallMadvise ptr 0 (AccessPattern.code p a) s).2),
              (p.syscallMadvise ptr 0 (AccessPattern.code p a) s).2)) := rfl

/-- C7 witness: a concrete non-null address with length zero, where the
platform reports success and `madvise` returns it. -/
theorem madvise_zero_length_passthrough_witness :
    (4096 : Nat) ≠ 0 ∧
    (madvise okPlatform 4096 0 AccessPattern.Normal zeroState).1 =
      Except.ok () :=
  ⟨by decide, by
    rw [madvise_zero_length_passthrough okPlatform 4096 AccessPattern.Normal
      zeroState (by decide)]
    rfl⟩

/-- C8: the library holds no internal mutable state: `madvise` is a pure
function of its arguments, the platform oracle, and the threaded system
state, so repeated calls with (possibly different) advice values on the
same range each succeed whenever the platform accepts them — no
library-side state prevents re-application. -/
theorem madvise_stateless_reapply (p : Platform) (ptr len : Nat)
    (a1 a2 : AccessPattern) (s : SysState)
    (h1 : p.retOf ptr len (AccessPattern.code p a1) s = 0)
    (h2 : p.retOf ptr len (AccessPattern.code p a2)
            ((madvise p ptr len a1 s).2) = 0) :
    (madvise p ptr len a1 s).1 = Except.ok () ∧
    (madvise p ptr len a2 ((madvise p ptr len a1 s).2)).1 = Except.ok () := by
  constructor
  · rw [madvise_fst_eq]
    simp [h1]
  · rw [madvise_fst_eq]
    simp [h2]

/-- C8 witness: two consecutive calls with different advice values on the
same range, both succeeding on a platform that accepts them. -/
theorem madvise_stateless_reapply_witness :
    okPlatform.retOf 4096 8 (AccessPattern.code okPlatform AccessPattern.Sequential)
      zeroState = 0 ∧
    okPlatform.retOf 4096 8 (AccessPattern.code okPlatform AccessPattern.Random)
      ((madvise okPlatform 4096 8 AccessPattern.Sequential zeroState).2) = 0 ∧
    (madvise okPlatform 4096 8 AccessPattern.Sequential zeroState).1 =
      Except.ok () ∧
    (madvise okPlatform 4096 8 AccessPattern.Random
      ((madvise okPlatform 4096 8 AccessPattern.Sequential zeroState).2)).1 =
      Except.ok () :=
  ⟨rfl, rfl,
   madvise_stateless_reapply okPlatform 4096 8 AccessPattern.Sequential
     AccessPattern.Random zeroState rfl rfl⟩

/-- C9: the raw `madvise` classifies every nonzero platform return value as
failure: the result is `Ok(())` exactly when the return code is 0, and it
is the error carrying the post-call errno exactly when the return code is
any nonzero value (not merely -1). -/
theorem madvise_nonzero_is_error (p : Platform) (ptr len : Nat)
    (a : AccessPattern) (s : SysState) :
    ((madvise p ptr len a s).1 = Except.ok () ↔
      p.retOf ptr len (AccessPattern.code p a) s = 0) ∧
    ((madvise p ptr len a s).1 =
        Except.error ⟨p.errnoOf ptr len (AccessPattern.code p a) s⟩ ↔
      p.retOf ptr len (AccessPattern.code p a) s ≠ 0) := by
  rw [madvise_fst_eq]
  by_cases h : p.retOf ptr len (AccessPattern.code p a) s = 0 <;> simp [h]

/-- C10: on unix targets, `advise_memory_access` on an empty slice does not
short-circuit: it calls the raw madvise operation with length 0 and the
slice's pointer, and when the platform call fails the result is that
failure, not an unconditional success. -/
theorem advise_unix_empty_slice (p : Platform) (b : ByteSlice)
    (a : AccessPattern) (s : SysState) (h : b.data = []) :
    advise_memory_access TargetFamily.unix p b a s = madvise p b.ptr 0 a s ∧
    (p.retOf b.ptr 0 (AccessPattern.code p a) s ≠ 0 →
      (advise_memory_access TargetFamily.unix p b a s).1 =
        Except.error ⟨p.errnoOf b.ptr 0 (AccessPattern.code p a) s⟩) := by
  have hlen : ByteSlice.len b = 0 := by
    rw [ByteSlice.len, h]
    rfl
  have key : advise_memory_access TargetFamily.unix p b a s =
      madvise p b.ptr 0 a s := by
    show madvise p (ByteSlice.as_ptr b) (ByteSlice.len b) a s =
      madvise p b.ptr 0 a s
    rw [hlen, ByteSlice.as_ptr]
  refine ⟨key, fun hne => ?_⟩
  rw [key, madvise_fst_eq]
  simp [hne]

/-- C10 witness: a concrete empty slice on a failing platform — the call is
not an unconditional success; it surfaces the platform error (EINVAL,
errno 22). -/
theorem advise_unix_empty_slice_witness :
    emptySlice.data = [] ∧
    (advise_memory_access TargetFamily.unix failPlatform emptySlice
      AccessPattern.DontNeed zeroState).1 = Except.error ⟨22⟩ :=
  ⟨rfl,
   (advise_unix_empty_slice failPlatform emptySlice AccessPattern.DontNeed
     zeroState rfl).2 (by decide)⟩

end Madvise
